import Mathlib

/-!
Shallow embedding of `pkg/cmd/roachtest-selector/sfselector/consumer.go`
(the roachtest selector consumer) and proofs about it.

The Go file reads a CSV of historical test statistics from GCS, builds a
map from test name to a `testInfo` record, and then walks the candidate
`[]registry.TestSpec`, marking some tests skipped in place and returning
the count of tests that were not skipped by it.

Modelling conventions:
* The GCS client stages (connection, object open, read) are external
  collaborators; their outcome is passed in as an `Except` value.  Each of
  the three Go early-return error paths returns `(len(tests), err)`, which
  the embedding reproduces.
* `encoding/csv`'s `ReadAll` is modelled at the record level: the input is
  the list of already-tokenised records, and the model keeps the one
  structural check the Go code relies on (every record must have the same
  number of fields as the first record, else `ReadAll` fails).
* Go's `strconv.ParseInt(s, 10, 64)` is modelled bit-faithfully, including
  its error protocol: a syntax error yields value `0`, an out-of-range
  input yields the clamped extreme of `int64` (`2^63 - 1` or `-2^63`).
* A Go panic (out-of-bounds slice index while building a record from a
  short row) is modelled by `Option`: `none` means the Go code panics.
* In-place mutation of `tests []registry.TestSpec` is modelled by
  returning the updated list alongside the count.
-/

namespace SFSelector

/-- Embeds `testInfo` from consumer.go: the information available from one
CSV row (`selected`, `avgDurationInMillis`, `totalRuns`).  `int64`/`int`
are modelled as `Int`; `ParseInt` below guarantees the `int64` range. -/
structure testInfo where
  selected : Bool
  avgDurationInMillis : Int
  totalRuns : Int
deriving DecidableEq

/-- Modelled from the spec: the fields of `registry.TestSpec` (a type of
this repository that is not under `src/`) consumed or written by the
selector.  `Name` is the lookup key, `Skip`/`SkipDetails` are the fields
the selector writes, and `TestSelectionOptOutSuites` is the spec's
"set-of-string or uninitialized-marker" container: `none` models an
uninitialized suite set (`IsInitialized()` false), `some l` an initialized
one whose `Contains` is list membership. -/
structure TestSpec where
  Name : String
  Skip : String
  SkipDetails : String
  TestSelectionOptOutSuites : Option (List String)
deriving DecidableEq

/-- The in-memory statistics table `testNamesToRun : map[string]*testInfo`,
modelled as an association list with unique keys (newest entry first). -/
abbrev StatTable := List (String × testInfo)

/-- Go map lookup `testNamesToRun[name]`. -/
def tableFind : StatTable → String → Option testInfo
  | [], _ => none
  | (k, v) :: m, k' => if k' = k then some v else tableFind m k'

/-- Go map assignment `testNamesToRun[k] = v`: the new binding replaces
any previous binding for `k`. -/
def tableInsert (m : StatTable) (k : String) (v : testInfo) : StatTable :=
  (k, v) :: m.filter (fun p => p.1 != k)

/-- Splits an optional leading sign, as `strconv.ParseInt` does before
delegating to `ParseUint`; `true` means negative. -/
def splitSign : List Char → Bool × List Char
  | '+' :: rest => (false, rest)
  | '-' :: rest => (true, rest)
  | cs => (false, cs)

/-- Decimal value of a digit string. -/
def digitsToNat (cs : List Char) : Nat :=
  cs.foldl (fun acc c => acc * 10 + (c.toNat - 48)) 0

/-- Models `strconv.ParseInt(s, 10, 64)`.  Returns the pair of the Go
return value and whether `err == nil`.  Per the Go implementation: an
empty body or a non-digit character is a syntax error returning `0`; a
value outside `int64` is a range error returning the clamped extreme
(`math.MaxInt64` for positive, `math.MinInt64` for negative). -/
def goParseInt64 (s : String) : Int × Bool :=
  let p := splitSign s.data
  if p.2.isEmpty || !(p.2.all Char.isDigit) then (0, false)
  else
    let n := digitsToNat p.2
    if p.1 then
      if n > 2 ^ 63 then (-(2 ^ 63 : Int), false) else (-(n : Int), true)
    else
      if n ≥ 2 ^ 63 then ((2 ^ 63 : Int) - 1, false) else ((n : Int), true)

/-- Embeds `getDuration`: `duration, _ := strconv.ParseInt(durationStr, 10, 64)`,
the error being discarded. -/
def getDuration (durationStr : String) : Int :=
  (goParseInt64 durationStr).1

/-- Embeds `getTotalRuns`: `totalRuns, _ := strconv.ParseInt(totalRunsStr, 10, 64)`
followed by `int(totalRuns)`, the identity on 64-bit targets. -/
def getTotalRuns (totalRunsStr : String) : Int :=
  (goParseInt64 totalRunsStr).1

/-- Builds the map entry for one data row `d`, embedding the loop body
`testNamesToRun[d[0]] = &testInfo{selected: d[1] != "no", ...}`.
The Go slice accesses `d[0]`..`d[3]` read the first four fields (any
further fields are ignored) and panic when the row is shorter than
4 fields; `none` models that panic. -/
def rowToEntry : List String → Option (String × testInfo)
  | name :: sel :: dur :: runs :: _ =>
    some (name, { selected := sel != "no"
                  avgDurationInMillis := getDuration dur
                  totalRuns := getTotalRuns runs })
  | _ => none

/-- One iteration of the map-building loop: insert the entry of row `d`
into the table, or fail (`none` models the Go panic on a short row). -/
def tableStep (m : StatTable) (d : List String) : Option StatTable :=
  (rowToEntry d).map (fun e => tableInsert m e.1 e.2)

/-- Builds `testNamesToRun` from the data rows (the rows after the header),
in iteration order; `none` models a Go panic on a short row. -/
def buildTable (rows : List (List String)) : Option StatTable :=
  rows.foldlM tableStep []

/-- Models `csv.Reader.ReadAll` over already-tokenised records: the reader
accepts the records iff every record has the same field count as the
first one, else it fails with `ErrFieldCount`. -/
def csvReadAll (rows : List (List String)) : Except String (List (List String)) :=
  match rows with
  | [] => .ok []
  | r :: rest =>
    if rest.all (fun x => x.length == r.length) then .ok (r :: rest)
    else .error "wrong number of fields"

/-- Embeds the opt-out condition of `testShouldBeSkipped`:
`test.TestSelectionOptOutSuites.IsInitialized() && test.TestSelectionOptOutSuites.Contains(suite)`. -/
def optOutApplies (test : TestSpec) (suite : String) : Bool :=
  match test.TestSelectionOptOutSuites with
  | some suites => suites.contains suite
  | none => false

/-- Embeds `testShouldBeSkipped`: the opt-out check short-circuits to
`false`; otherwise `toRun, ok := testNamesToRun[test.Name]` and the result
is `ok && test.Skip == "" && !toRun.selected`. -/
def testShouldBeSkipped (testNamesToRun : StatTable) (test : TestSpec) (suite : String) : Bool :=
  if optOutApplies test suite then false
  else
    match tableFind testNamesToRun test.Name with
    | some toRun => test.Skip == "" && !toRun.selected
    | none => false

/-- The fixed marker written to `tests[i].Skip`. -/
def skipMarker : String := "test selector"

/-- The fixed explanation written to `tests[i].SkipDetails`. -/
def skipDetailsMsg : String := "test skipped because it is stable and selective-tests is set."

/-- The per-candidate mutation of the selection loop body: a candidate that
should be skipped gets `Skip`/`SkipDetails` overwritten with the fixed
strings, any other candidate is left untouched. -/
def selectOne (m : StatTable) (suite : String) (t : TestSpec) : TestSpec :=
  if testShouldBeSkipped m t suite then
    { t with Skip := skipMarker, SkipDetails := skipDetailsMsg }
  else t

/-- Embeds the selection loop of `ReadTestsToRun`: walks the candidates,
mutating the skipped ones and counting the others into
`selectedTestsCount`.  Returns the count and the updated list. -/
def selectLoop (m : StatTable) (suite : String) : List TestSpec → Nat × List TestSpec
  | [] => (0, [])
  | t :: ts =>
    let r := selectLoop m suite ts
    if testShouldBeSkipped m t suite then
      (r.1, { t with Skip := skipMarker, SkipDetails := skipDetailsMsg } :: r.2)
    else (r.1 + 1, t :: r.2)

/-- The fatal error kinds of `ReadTestsToRun`.  The first three arise in
the external GCS stages (client construction, object open, `io.ReadAll`);
the last is the CSV reader's structural failure. -/
inductive SFError where
  | connectionFailed
  | objectFetchFailed
  | readFailed
  | csvReadFailed
deriving DecidableEq

/-- Embeds `ReadTestsToRun`.  `fetched` is the outcome of the external GCS
fetch (client + object + read), each Go error path of which returns
`(len(tests), wrapped err)` without touching `tests`; a CSV field-count
failure does the same.  A table of at most one record (header only or
empty) returns `(len(tests), nil)` before the loop.  Otherwise the map is
built from `data[1:]` and the selection loop runs.  The result is
`(selectedTestsCount, updated tests, error)`; the outer `none` models a
Go panic while indexing a short row. -/
def ReadTestsToRun :
    Except SFError (List (List String)) → List TestSpec → String →
    Option (Nat × List TestSpec × Option SFError)
  | .error e, tests, _ => some (tests.length, tests, some e)
  | .ok rawRows, tests, suite =>
    match csvReadAll rawRows with
    | .error _ => some (tests.length, tests, some .csvReadFailed)
    | .ok data =>
      if data.length ≤ 1 then some (tests.length, tests, none)
      else
        match buildTable (data.drop 1) with
        | none => none
        | some m =>
          let r := selectLoop m suite tests
          some (r.1, r.2, none)

/-! ### Helper lemmas about the selector -/

/-- A candidate whose `Skip` field is already non-empty is never classified
as to-be-skipped: the `test.Skip == ""` conjunct of `testShouldBeSkipped`
is false on it. -/
theorem testShouldBeSkipped_of_skip_ne (m : StatTable) (suite : String) (t : TestSpec)
    (h : t.Skip ≠ "") : testShouldBeSkipped m t suite = false := by
  unfold testShouldBeSkipped
  split
  · rfl
  · cases hf : tableFind m t.Name with
    | none => rfl
    | some toRun => simp [h]

/-- Unfolds one non-skipped iteration of the selection loop. -/
theorem selectLoop_cons_not_skipped (m : StatTable) (suite : String) (t : TestSpec)
    (ts : List TestSpec) (h : testShouldBeSkipped m t suite = false) :
    selectLoop m suite (t :: ts) =
      ((selectLoop m suite ts).1 + 1, t :: (selectLoop m suite ts).2) := by
  simp [selectLoop, h]

/-- Unfolds one skipped iteration of the selection loop. -/
theorem selectLoop_cons_skipped (m : StatTable) (suite : String) (t : TestSpec)
    (ts : List TestSpec) (h : testShouldBeSkipped m t suite = true) :
    selectLoop m suite (t :: ts) =
      ((selectLoop m suite ts).1,
        { t with Skip := skipMarker, SkipDetails := skipDetailsMsg } :: (selectLoop m suite ts).2) := by
  simp [selectLoop, h]

/-- The updated candidate list is the element-wise image of `selectOne`. -/
theorem selectLoop_snd (m : StatTable) (suite : String) (ts : List TestSpec) :
    (selectLoop m suite ts).2 = ts.map (selectOne m suite) := by
  induction ts with
  | nil => rfl
  | cons t ts ih =>
    cases h : testShouldBeSkipped m t suite with
    | false => rw [selectLoop_cons_not_skipped m suite t ts h]; simp [selectOne, h, ih]
    | true => rw [selectLoop_cons_skipped m suite t ts h]; simp [selectOne, h, ih]

/-- Applying the per-candidate mutation twice is the same as applying it
once: a freshly marked candidate has a non-empty `Skip` and is left
untouched on the second pass. -/
theorem selectOne_idem (m : StatTable) (suite : String) (t : TestSpec) :
    selectOne m suite (selectOne m suite t) = selectOne m suite t := by
  cases h : testShouldBeSkipped m t suite with
  | false => simp [selectOne, h]
  | true =>
    have h2 : selectOne m suite t = { t with Skip := skipMarker, SkipDetails := skipDetailsMsg } := by
      simp [selectOne, h]
    have h3 : testShouldBeSkipped m
        { t with Skip := skipMarker, SkipDetails := skipDetailsMsg } suite = false := by
      apply testShouldBeSkipped_of_skip_ne
      simp [skipMarker]
    rw [h2]
    simp [selectOne, h3]

/-! ### Claims C1, C2, C3 -/

/-- C1, counterexample.  One candidate named "A" with pre-existing skip
marker "other", one statistics record for "A" with `selected = false`.
The claim says the candidate is excluded from the returned selected
count, so the count would be 0; the code leaves the candidate untouched
but still counts it, returning 1. -/
theorem C1_counterexample :
    (⟨"A", "other", "", none⟩ : TestSpec).Skip ≠ "" ∧
    selectLoop [("A", ⟨false, 100, 5⟩)] "acceptance" [⟨"A", "other", "", none⟩] =
      (1, [⟨"A", "other", "", none⟩]) := by
  exact ⟨by decide, by decide⟩

/-- C1, amended: a candidate with a pre-existing non-empty skip is never
classified as to-be-skipped, so its `Skip`/`SkipDetails` fields are never
overwritten — but it IS counted in the returned selected count (the code
increments `selectedTestsCount` for every candidate not freshly skipped,
including those carrying a pre-existing skip). -/
theorem C1_pre_skip_untouched_but_counted (m : StatTable) (suite : String)
    (t : TestSpec) (ts : List TestSpec) (h : t.Skip ≠ "") :
    testShouldBeSkipped m t suite = false ∧
    selectLoop m suite (t :: ts) =
      ((selectLoop m suite ts).1 + 1, t :: (selectLoop m suite ts).2) := by
  have hf := testShouldBeSkipped_of_skip_ne m suite t h
  exact ⟨hf, selectLoop_cons_not_skipped m suite t ts hf⟩

/-- C1, witness for the amended theorem at a concrete candidate. -/
theorem C1_witness :
    testShouldBeSkipped [("A", ⟨false, 100, 5⟩)] ⟨"A", "other", "", none⟩ "acceptance" = false ∧
    selectLoop [("A", ⟨false, 100, 5⟩)] "acceptance" [⟨"A", "other", "", none⟩] =
      ((selectLoop [("A", ⟨false, 100, 5⟩)] "acceptance" []).1 + 1,
        ⟨"A", "other", "", none⟩ :: (selectLoop [("A", ⟨false, 100, 5⟩)] "acceptance" []).2) :=
  C1_pre_skip_untouched_but_counted [("A", ⟨false, 100, 5⟩)] "acceptance"
    ⟨"A", "other", "", none⟩ [] (by decide)

/-- C2: a candidate whose opt-out suite set is initialized and contains the
given suite is never marked skipped and is counted as selected, for every
statistics table. -/
theorem C2_opt_out_never_skipped (m : StatTable) (suite : String) (t : TestSpec)
    (ts : List TestSpec) (s : List String)
    (h1 : t.TestSelectionOptOutSuites = some s) (h2 : s.contains suite = true) :
    testShouldBeSkipped m t suite = false ∧
    selectLoop m suite (t :: ts) =
      ((selectLoop m suite ts).1 + 1, t :: (selectLoop m suite ts).2) := by
  have hm : suite ∈ s := by simpa using h2
  have hf : testShouldBeSkipped m t suite = false := by
    simp [testShouldBeSkipped, optOutApplies, h1, hm]
  exact ⟨hf, selectLoop_cons_not_skipped m suite t ts hf⟩

/-- C2, witness: the table even records the candidate with
`selected = false`, yet the opt-out wins. -/
theorem C2_witness :
    testShouldBeSkipped [("A", ⟨false, 1, 2⟩)] ⟨"A", "", "", some ["acceptance"]⟩ "acceptance" = false ∧
    selectLoop [("A", ⟨false, 1, 2⟩)] "acceptance" [⟨"A", "", "", some ["acceptance"]⟩] =
      ((selectLoop [("A", ⟨false, 1, 2⟩)] "acceptance" []).1 + 1,
        ⟨"A", "", "", some ["acceptance"]⟩ :: (selectLoop [("A", ⟨false, 1, 2⟩)] "acceptance" []).2) :=
  C2_opt_out_never_skipped [("A", ⟨false, 1, 2⟩)] "acceptance"
    ⟨"A", "", "", some ["acceptance"]⟩ [] ["acceptance"] rfl (by decide)

/-- C3: a candidate whose name has no entry in the statistics table (and
which is not opted out) is never marked skipped and is counted as
selected. -/
theorem C3_absent_never_skipped (m : StatTable) (suite : String) (t : TestSpec)
    (ts : List TestSpec) (h1 : tableFind m t.Name = none)
    (h2 : optOutApplies t suite = false) :
    testShouldBeSkipped m t suite = false ∧
    selectLoop m suite (t :: ts) =
      ((selectLoop m suite ts).1 + 1, t :: (selectLoop m suite ts).2) := by
  have hf : testShouldBeSkipped m t suite = false := by
    unfold testShouldBeSkipped
    rw [h2, h1]
    rfl
  exact ⟨hf, selectLoop_cons_not_skipped m suite t ts hf⟩

/-- C3, witness: a candidate named "B" against a table that only knows "A". -/
theorem C3_witness :
    testShouldBeSkipped [("A", ⟨false, 100, 5⟩)] ⟨"B", "", "", none⟩ "nightly" = false ∧
    selectLoop [("A", ⟨false, 100, 5⟩)] "nightly" [⟨"B", "", "", none⟩] =
      ((selectLoop [("A", ⟨false, 100, 5⟩)] "nightly" []).1 + 1,
        ⟨"B", "", "", none⟩ :: (selectLoop [("A", ⟨false, 100, 5⟩)] "nightly" []).2) :=
  C3_absent_never_skipped [("A", ⟨false, 100, 5⟩)] "nightly" ⟨"B", "", "", none⟩ []
    (by decide) rfl

/-- C4: a candidate with a table entry whose `selected` flag is false, no
opt-out for the suite, and an empty pre-existing skip gets `Skip` set to
the fixed marker and `SkipDetails` to the fixed explanation and is
excluded from the count; and these are exactly the mutated candidates:
every candidate not classified as to-be-skipped is returned unchanged,
and every candidate classified as to-be-skipped satisfies exactly those
conditions. -/
theorem C4_historical_skip (m : StatTable) (suite : String) (t : TestSpec)
    (ts : List TestSpec) (ti : testInfo) (h1 : tableFind m t.Name = some ti)
    (h2 : ti.selected = false) (h3 : optOutApplies t suite = false)
    (h4 : t.Skip = "") :
    selectLoop m suite (t :: ts) =
      ((selectLoop m suite ts).1,
        { t with Skip := skipMarker, SkipDetails := skipDetailsMsg } :: (selectLoop m suite ts).2) ∧
    (∀ u, testShouldBeSkipped m u suite = false → selectOne m suite u = u) ∧
    (∀ u, testShouldBeSkipped m u suite = true →
      ∃ ti', tableFind m u.Name = some ti' ∧ ti'.selected = false ∧
        optOutApplies u suite = false ∧ u.Skip = "") := by
  have hskip : testShouldBeSkipped m t suite = true := by
    simp [testShouldBeSkipped, h1, h2, h3, h4]
  refine ⟨selectLoop_cons_skipped m suite t ts hskip, ?_, ?_⟩
  · intro u hu
    simp [selectOne, hu]
  · intro u hu
    unfold testShouldBeSkipped at hu
    cases ho : optOutApplies u suite with
    | true => rw [ho] at hu; simp at hu
    | false =>
      rw [ho] at hu
      simp only [Bool.false_eq_true, if_false] at hu
      cases hf : tableFind m u.Name with
      | none => rw [hf] at hu; exact absurd hu (by simp)
      | some ti' =>
        rw [hf] at hu
        have hand : u.Skip = "" ∧ ti'.selected = false := by simpa using hu
        exact ⟨ti', rfl, hand.2, rfl, hand.1⟩

/-- C4, witness: candidate "A" with empty skip, no opt-out, and a record
with `selected = false`, next to nothing else in the list. -/
theorem C4_witness :
    selectLoop [("A", ⟨false, 100, 5⟩)] "acceptance" [⟨"A", "", "", none⟩] =
      ((selectLoop [("A", ⟨false, 100, 5⟩)] "acceptance" []).1,
        { (⟨"A", "", "", none⟩ : TestSpec) with
            Skip := skipMarker, SkipDetails := skipDetailsMsg } ::
          (selectLoop [("A", ⟨false, 100, 5⟩)] "acceptance" []).2) :=
  (C4_historical_skip [("A", ⟨false, 100, 5⟩)] "acceptance" ⟨"A", "", "", none⟩ []
    ⟨false, 100, 5⟩ rfl rfl rfl rfl).1

/-- C9: the selection pass is idempotent on candidate state: re-running the
loop on the already-processed candidate list changes no candidate's
`Skip`/`SkipDetails` fields. -/
theorem C9_selection_idempotent (m : StatTable) (suite : String) (ts : List TestSpec) :
    (selectLoop m suite (selectLoop m suite ts).2).2 = (selectLoop m suite ts).2 := by
  rw [selectLoop_snd, selectLoop_snd, List.map_map]
  apply List.map_congr_left
  intro t _
  exact selectOne_idem m suite t

/-- C5: a payload whose parsed table has at most the header row (or is
empty) makes the operation succeed with no candidate mutated and the
selected count equal to the candidate count. -/
theorem C5_header_only (rawRows data : List (List String)) (tests : List TestSpec)
    (suite : String) (h1 : csvReadAll rawRows = .ok data) (h2 : data.length ≤ 1) :
    ReadTestsToRun (.ok rawRows) tests suite = some (tests.length, tests, none) := by
  simp only [ReadTestsToRun]
  rw [h1]
  simp [h2]

/-- C5, witness: a header-only payload against one candidate. -/
theorem C5_witness :
    ReadTestsToRun (.ok [["TEST_NAME", "SELECTED", "AVG_DURATION", "TOTAL_RUNS"]])
      [⟨"A", "", "", none⟩] "nightly" = some (1, [⟨"A", "", "", none⟩], none) :=
  C5_header_only [["TEST_NAME", "SELECTED", "AVG_DURATION", "TOTAL_RUNS"]]
    [["TEST_NAME", "SELECTED", "AVG_DURATION", "TOTAL_RUNS"]]
    [⟨"A", "", "", none⟩] "nightly" rfl (by decide)

/-- C7: every fatal error — any of the three external fetch-stage failures,
or a CSV structural failure (a row whose field count differs from the
first row's) — makes `ReadTestsToRun` return the error together with the
original full candidate count, with no candidate mutated. -/
theorem C7_fatal_errors (tests : List TestSpec) (suite : String) :
    (∀ e, ReadTestsToRun (.error e) tests suite = some (tests.length, tests, some e)) ∧
    (∀ rawRows msg, csvReadAll rawRows = .error msg →
      ReadTestsToRun (.ok rawRows) tests suite =
        some (tests.length, tests, some SFError.csvReadFailed)) := by
  constructor
  · intro e
    rfl
  · intro rawRows msg h
    simp only [ReadTestsToRun]
    rw [h]

/-- C7, witness: a connection failure and a malformed 3-column row, each
against 2 candidates, both returning count 2 with the list unchanged. -/
theorem C7_witness :
    ReadTestsToRun (.error SFError.connectionFailed)
      [⟨"A", "", "", none⟩, ⟨"B", "", "", none⟩] "nightly" =
      some (2, [⟨"A", "", "", none⟩, ⟨"B", "", "", none⟩], some SFError.connectionFailed) ∧
    ReadTestsToRun (.ok [["n", "s", "d", "r"], ["x", "y", "z"]])
      [⟨"A", "", "", none⟩, ⟨"B", "", "", none⟩] "nightly" =
      some (2, [⟨"A", "", "", none⟩, ⟨"B", "", "", none⟩], some SFError.csvReadFailed) :=
  ⟨(C7_fatal_errors [⟨"A", "", "", none⟩, ⟨"B", "", "", none⟩] "nightly").1
      SFError.connectionFailed,
    (C7_fatal_errors [⟨"A", "", "", none⟩, ⟨"B", "", "", none⟩] "nightly").2
      [["n", "s", "d", "r"], ["x", "y", "z"]] "wrong number of fields" rfl⟩

/-- C10: a payload whose rows uniformly have fewer than 4 columns passes
the CSV reader's field-count check, and building the table then indexes a
row out of bounds: the embedding returns `none`, modelling the Go panic
at `d[3]` instead of a parse error. -/
theorem C10_uniform_short_rows_panic :
    csvReadAll [["TEST_NAME", "SELECTED", "AVG_DURATION"], ["t1", "yes", "100"]] =
      Except.ok [["TEST_NAME", "SELECTED", "AVG_DURATION"], ["t1", "yes", "100"]] ∧
    List.all [["TEST_NAME", "SELECTED", "AVG_DURATION"], ["t1", "yes", "100"]]
      (fun d => decide (d.length < 4)) = true ∧
    ReadTestsToRun (Except.ok [["TEST_NAME", "SELECTED", "AVG_DURATION"], ["t1", "yes", "100"]])
      [⟨"t1", "", "", none⟩] "nightly" = none :=
  ⟨rfl, by decide, rfl⟩

/-! ### Claim C6: numeric-cell leniency -/

/-- Whether `strconv.ParseInt(s, 10, 64)` accepts `s` syntactically: after
an optional sign there is at least one character and all characters are
decimal digits.  (When this fails `ParseInt` reports `ErrSyntax` and
returns 0; when it holds but the value overflows `int64`, `ParseInt`
reports `ErrRange` and returns the clamped extreme.) -/
def intSyntaxOK (s : String) : Bool :=
  !(splitSign s.data).2.isEmpty && (splitSign s.data).2.all Char.isDigit

/-- C6, counterexample.  The 20-digit cell "99999999999999999999" does not
parse as an `int64` (`ParseInt` returns a range error), yet the field is
built as `2^63 - 1`, not `0` as the claim requires. -/
theorem C6_counterexample :
    (goParseInt64 "99999999999999999999").2 = false ∧
    getDuration "99999999999999999999" ≠ 0 ∧
    getDuration "99999999999999999999" = 2 ^ 63 - 1 := by
  refine ⟨by decide, by decide, by decide⟩

/-- C6, amended: a duration or total-runs cell that is syntactically
invalid as an integer yields `0`; any cell on which `ParseInt` errors
yields `0` or a clamped extreme of `int64` (never an error); and a
4-field row is always built into a record, never dropped. -/
theorem C6_numeric_leniency :
    (∀ s, intSyntaxOK s = false → getDuration s = 0 ∧ getTotalRuns s = 0) ∧
    (∀ s, (goParseInt64 s).2 = false →
      getDuration s = 0 ∨ getDuration s = 2 ^ 63 - 1 ∨ getDuration s = -(2 ^ 63)) ∧
    (∀ name sel dur runs, rowToEntry [name, sel, dur, runs] =
      some (name, ⟨sel != "no", getDuration dur, getTotalRuns runs⟩)) := by
  refine ⟨?_, ?_, ?_⟩
  · intro s h
    have hc : ((splitSign s.data).2.isEmpty || !((splitSign s.data).2.all Char.isDigit)) = true := by
      cases he : (splitSign s.data).2.isEmpty <;>
        cases ha : (splitSign s.data).2.all Char.isDigit <;>
          simp_all [intSyntaxOK]
    constructor <;> simp [getDuration, getTotalRuns, goParseInt64, hc]
  · intro s h
    by_cases hc : ((splitSign s.data).2.isEmpty || !((splitSign s.data).2.all Char.isDigit)) = true
    · left
      simp [getDuration, goParseInt64, hc]
    · have hc' : ((splitSign s.data).2.isEmpty || !((splitSign s.data).2.all Char.isDigit)) = false := by
        simpa using hc
      cases hneg : (splitSign s.data).1 with
      | true =>
        by_cases hgt : 9223372036854775808 < digitsToNat (splitSign s.data).2
        · right; right
          simp [getDuration, goParseInt64, hc', hneg, hgt]
        · exfalso
          simp [goParseInt64, hc', hneg, hgt] at h
      | false =>
        by_cases hge : 9223372036854775808 ≤ digitsToNat (splitSign s.data).2
        · right; left
          simp [getDuration, goParseInt64, hc', hneg, hge]
        · exfalso
          simp [goParseInt64, hc', hneg, hge] at h
  · intro name sel dur runs
    rfl

/-- C6, witness for the amended theorem: the spec's own scenario, a
non-numeric cell "abc", yields 0 in both numeric fields, and a 4-field
row with it is still built. -/
theorem C6_witness :
    (intSyntaxOK "abc" = false ∧ getDuration "abc" = 0 ∧ getTotalRuns "abc" = 0) ∧
    rowToEntry ["t1", "yes", "abc", "7"] =
      some ("t1", ⟨("yes" : String) != "no", getDuration "abc", getTotalRuns "7"⟩) :=
  ⟨⟨by decide, C6_numeric_leniency.1 "abc" (by decide)⟩,
    C6_numeric_leniency.2.2 "t1" "yes" "abc" "7"⟩

/-! ### Claim C8: last-write-wins map construction -/

/-- Looking up a key other than the filtered-out one is unaffected by the
filtering `tableInsert` performs. -/
theorem tableFind_filter_ne (m : StatTable) (k k' : String) (h : k' ≠ k) :
    tableFind (m.filter (fun p => p.1 != k)) k' = tableFind m k' := by
  induction m with
  | nil => rfl
  | cons a m ih =>
    obtain ⟨ka, va⟩ := a
    by_cases hak : ka = k
    · subst hak
      have h1 : ((ka, va) :: m).filter (fun p => p.1 != ka) = m.filter (fun p => p.1 != ka) := by
        simp [List.filter_cons]
      rw [h1, ih]
      simp [tableFind, h]
    · have h1 : ((ka, va) :: m).filter (fun p => p.1 != k) =
          (ka, va) :: m.filter (fun p => p.1 != k) := by
        simp [List.filter_cons, hak]
      rw [h1]
      by_cases hka : k' = ka
      · simp [tableFind, hka]
      · simp [tableFind, hka, ih]

/-- Go-map semantics of `tableInsert`: the inserted key maps to the new
value, every other key is unaffected. -/
theorem tableFind_insert (m : StatTable) (k : String) (v : testInfo) (k' : String) :
    tableFind (tableInsert m k v) k' = if k' = k then some v else tableFind m k' := by
  unfold tableInsert
  by_cases h : k' = k
  · simp [tableFind, h]
  · simp [tableFind, h, tableFind_filter_ne m k k' h]

/-- `tableInsert` preserves key uniqueness. -/
theorem tableInsert_keys_nodup (m : StatTable) (k : String) (v : testInfo)
    (h : (m.map Prod.fst).Nodup) : ((tableInsert m k v).map Prod.fst).Nodup := by
  unfold tableInsert
  rw [List.map_cons, List.nodup_cons]
  constructor
  · intro hmem
    rw [List.mem_map] at hmem
    obtain ⟨p, hp, hpk⟩ := hmem
    rw [List.mem_filter] at hp
    have h2 : p.1 ≠ k := by simpa using hp.2
    exact h2 hpk
  · exact List.Nodup.sublist ((List.filter_sublist m).map Prod.fst) h

/-- A row that builds an entry has that entry's key in its first field. -/
theorem rowToEntry_head (d : List String) (e : String × testInfo)
    (h : rowToEntry d = some e) : d.head? = some e.1 := by
  rcases d with _ | ⟨name, d⟩
  · simp [rowToEntry] at h
  rcases d with _ | ⟨sel, d⟩
  · simp [rowToEntry] at h
  rcases d with _ | ⟨dur, d⟩
  · simp [rowToEntry] at h
  rcases d with _ | ⟨runs, d⟩
  · simp [rowToEntry] at h
  · simp only [rowToEntry, Option.some.injEq] at h
    rw [← h]
    rfl

/-- Follows the spec's words, not the code: the record described by the
last row in iteration order whose test-name column equals `k`, if any. -/
def lastRowRecord (rows : List (List String)) (k : String) : Option testInfo :=
  match rows.reverse.find? (fun d => d.head? == some k) with
  | some d => (rowToEntry d).map Prod.snd
  | none => none

/-- Invariant of the map-building fold, generalized over the accumulator:
key uniqueness is preserved, and a lookup returns the entry of the last
matching row, falling back to the accumulator. -/
theorem buildTable_go (rows : List (List String)) :
    ∀ m0 m : StatTable, List.foldlM tableStep m0 rows = some m →
      ((m0.map Prod.fst).Nodup → (m.map Prod.fst).Nodup) ∧
      ∀ k, tableFind m k =
        match rows.reverse.find? (fun d => d.head? == some k) with
        | some d => (rowToEntry d).map Prod.snd
        | none => tableFind m0 k := by
  induction rows with
  | nil =>
    intro m0 m h
    simp [List.foldlM_nil] at h
    subst h
    exact ⟨id, fun k => rfl⟩
  | cons d rest ih =>
    intro m0 m h
    rw [List.foldlM_cons] at h
    cases hd : rowToEntry d with
    | none =>
      rw [show tableStep m0 d = none from by simp [tableStep, hd]] at h
      simp at h
    | some e =>
      rw [show tableStep m0 d = some (tableInsert m0 e.1 e.2) from by simp [tableStep, hd]] at h
      have h' : List.foldlM tableStep (tableInsert m0 e.1 e.2) rest = some m := h
      obtain ⟨hnd, hfind⟩ := ih (tableInsert m0 e.1 e.2) m h'
      constructor
      · intro h0
        exact hnd (tableInsert_keys_nodup m0 e.1 e.2 h0)
      · intro k
        rw [hfind k, List.reverse_cons, List.find?_append]
        cases hfr : rest.reverse.find? (fun d' => d'.head? == some k) with
        | some d' => simp [Option.or]
        | none =>
          have hh := rowToEntry_head d e hd
          by_cases hk : k = e.1
          · subst hk
            simp [Option.or, List.find?, hh, hd, tableFind_insert]
          · have hne : (d.head? == some k) = false := by
              rw [hh]
              simpa using fun hcontra => hk hcontra.symm
            simp [Option.or, List.find?, hne, tableFind_insert, hk]

/-- C8: when the table builds successfully, it holds at most one record
per test name, and the record kept for any name is the one of the last
row in iteration order carrying that name. -/
theorem C8_last_write_wins (rows : List (List String)) (m : StatTable)
    (h : buildTable rows = some m) :
    (m.map Prod.fst).Nodup ∧ ∀ k, tableFind m k = lastRowRecord rows k := by
  obtain ⟨hnd, hfind⟩ := buildTable_go rows [] m h
  refine ⟨hnd (by simp), fun k => ?_⟩
  rw [hfind k]
  unfold lastRowRecord
  cases rows.reverse.find? (fun d => d.head? == some k) <;> rfl

/-- C8, witness: two rows named "a" (the later with `selected` true) and
one named "b"; the built table has unique keys and maps "a" to the later
row's record. -/
theorem C8_witness :
    (([("b", ⟨false, 0, 0⟩), ("a", ⟨true, 3, 4⟩)] : StatTable).map Prod.fst).Nodup ∧
    tableFind [("b", ⟨false, 0, 0⟩), ("a", ⟨true, 3, 4⟩)] "a" =
      lastRowRecord [["a", "no", "1", "2"], ["a", "yes", "3", "4"], ["b", "no", "x", "y"]] "a" :=
  ⟨(C8_last_write_wins [["a", "no", "1", "2"], ["a", "yes", "3", "4"], ["b", "no", "x", "y"]]
      [("b", ⟨false, 0, 0⟩), ("a", ⟨true, 3, 4⟩)] (by decide)).1,
    (C8_last_write_wins [["a", "no", "1", "2"], ["a", "yes", "3", "4"], ["b", "no", "x", "y"]]
      [("b", ⟨false, 0, 0⟩), ("a", ⟨true, 3, 4⟩)] (by decide)).2 "a"⟩

end SFSelector
